import Mathlib

/-!
Shallow embedding of the NJORD CO2 monitor application (src/main.py):
the air-quality band table `co2_levels`, the classifier `get_co2_level`,
the interaction traces of the two cooperative tasks (`co2_task`, `ui_task`),
the display state mutated by widget writes, and the top-level exception
handler of the `__main__` block.

Python numbers are modelled by ℚ; the `float("inf")` upper bound of the
last band is modelled by `Option ℚ` with `none` standing for infinity.
-/

namespace Njord

/-- Model of `lv.color_hex`: an opaque color value determined by its hex code. -/
structure M5Color where
  hex : Nat
deriving DecidableEq, Repr

def color_hex (n : Nat) : M5Color := ⟨n⟩

/-- One entry of the `co2_levels` table (a Python dict in the source).
`max_ppm = none` models `float("inf")`. -/
structure CO2Level where
  level : String
  min_ppm : ℚ
  max_ppm : Option ℚ
  color : M5Color
  description : String
deriving DecidableEq, Repr

def lvl_excellent : CO2Level :=
  { level := "Excellent", min_ppm := 0, max_ppm := some 500,
    color := color_hex 0x43c44f, description := "Typical outdoor CO₂ levels." }

def lvl_good : CO2Level :=
  { level := "Good", min_ppm := 500, max_ppm := some 700,
    color := color_hex 0x43c44f, description := "Normal indoor air quality." }

def lvl_acceptable : CO2Level :=
  { level := "Acceptable", min_ppm := 700, max_ppm := some 1000,
    color := color_hex 0xd6c831,
    description := "Acceptable indoor air quality; minor discomfort possible." }

def lvl_poor : CO2Level :=
  { level := "Poor", min_ppm := 1000, max_ppm := some 1500,
    color := color_hex 0xd68131,
    description := "Reduced concentration and drowsiness. Ventilation recommended." }

def lvl_bad : CO2Level :=
  { level := "Bad", min_ppm := 1500, max_ppm := none,
    color := color_hex 0xd63131,
    description := "Ventilation required. Headaches, sleepiness, and stale air." }

def co2_levels : List CO2Level :=
  [lvl_excellent, lvl_good, lvl_acceptable, lvl_poor, lvl_bad]

/-- The loop condition of `get_co2_level`: the Python chained comparison
`level["min_ppm"] <= ppm < level["max_ppm"]`; a comparison against
`float("inf")` (here `none`) is always true. -/
def band_matches (ppm : ℚ) (l : CO2Level) : Bool :=
  decide (l.min_ppm ≤ ppm) &&
    (match l.max_ppm with
     | some m => decide (ppm < m)
     | none => true)

/-- `get_co2_level(ppm)`: return the first entry of `co2_levels` whose
interval contains `ppm`, else `None`. -/
def get_co2_level (ppm : ℚ) : Option CO2Level :=
  co2_levels.find? (band_matches ppm)

/-- Index (in table order) of the band `get_co2_level` would return:
the first index of `co2_levels` whose interval contains `ppm`. -/
def get_co2_level_index (ppm : ℚ) : Nat :=
  co2_levels.findIdx (band_matches ppm)

/-- The five label widgets created in `main`. -/
inductive Label
  | address
  | ppm
  | level
  | temperature
  | humidity
deriving DecidableEq, Repr

/-- Observable interaction events of the tasks: driver commands and reads,
widget writes, console prints, sleeps, the UI pump tick, and the fault
raised by indexing into `None`. -/
inductive Event
  | cmd_stop
  | cmd_start
  | query_ready
  | read_co2
  | read_temperature
  | read_humidity
  | set_text (l : Label) (s : String)
  | set_text_color (l : Label) (c : M5Color)
  | print_msg (s : String)
  | sleep_ms (n : Nat)
  | m5_update
  | fault
deriving DecidableEq, Repr

/-- What the driver would answer during one loop iteration:
`is_data_ready()` and the three readable properties. -/
structure SensorInput where
  ready : Bool
  co2 : ℚ
  temperature : ℚ
  humidity : ℚ

/-- One iteration of the `while True` loop of `co2_task`, as the trace of
events it performs given the driver's answers. When `get_co2_level`
returns `None`, the body's `level["level"]` access (in the print call)
raises, so the trace ends in `fault` with nothing written and no sleep. -/
def co2_iteration (s : SensorInput) : List Event :=
  if s.ready then
    match get_co2_level s.co2 with
    | none => [.query_ready, .read_co2, .fault]
    | some lvl =>
        [.query_ready, .read_co2,
         .print_msg ("CO2: " ++ toString s.co2 ++ " ppm, Level: " ++ lvl.level),
         .set_text .ppm (toString s.co2 ++ " ppm"),
         .set_text_color .ppm lvl.color,
         .set_text .level lvl.level,
         .set_text_color .level lvl.color,
         .read_temperature,
         .set_text .temperature (toString s.temperature ++ " °C"),
         .set_text_color .temperature lvl.color,
         .read_humidity,
         .set_text .humidity (toString s.humidity ++ " %"),
         .set_text_color .humidity lvl.color,
         .sleep_ms 1000]
  else
    [.query_ready, .sleep_ms 1000]

/-- The loop of `co2_task` over a finite schedule of driver answers; an
iteration that faults ends the loop (the exception propagates). -/
def co2_loop : List SensorInput → List Event
  | [] => []
  | s :: rest =>
      if Event.fault ∈ co2_iteration s then co2_iteration s
      else co2_iteration s ++ co2_loop rest

/-- The trace of `co2_task`: startup print, then the defensive
`set_stop_periodic_measurement` followed by `set_start_periodic_measurement`,
then the polling loop. -/
def co2_task_trace (inputs : List SensorInput) : List Event :=
  Event.print_msg ("CO2 task started") ::
    Event.cmd_stop :: Event.cmd_start :: co2_loop inputs

/-- The trace of `ui_task` for `n` iterations: startup print, then
`M5.update()` and a 20 ms sleep each iteration. -/
def ui_task_trace (n : Nat) : List Event :=
  Event.print_msg ("UI task started") ::
    (List.replicate n [Event.m5_update, Event.sleep_ms 20]).flatten

/-- Visual state owned by one label widget. -/
structure LabelState where
  text : String
  color : M5Color
deriving DecidableEq, Repr

/-- The five labels of the dashboard. -/
structure DisplayState where
  address : LabelState
  ppm : LabelState
  level : LabelState
  temperature : LabelState
  humidity : LabelState
deriving DecidableEq, Repr

def update_label (st : DisplayState) (l : Label) (f : LabelState → LabelState) :
    DisplayState :=
  match l with
  | .address => { st with address := f st.address }
  | .ppm => { st with ppm := f st.ppm }
  | .level => { st with level := f st.level }
  | .temperature => { st with temperature := f st.temperature }
  | .humidity => { st with humidity := f st.humidity }

/-- Effect of one event on the display: `set_text` / `set_text_color`
mutate the addressed label, everything else leaves the display alone. -/
def apply_event (st : DisplayState) : Event → DisplayState
  | .set_text l s => update_label st l (fun lab => { lab with text := s })
  | .set_text_color l c => update_label st l (fun lab => { lab with color := c })
  | _ => st

def run_events (st : DisplayState) (tr : List Event) : DisplayState :=
  tr.foldl apply_event st

/-- The widget tree built in `main`: initial placeholder texts and the
`text_c=0xffffff` color of every label. -/
def initial_display : DisplayState :=
  { address := ⟨"255.255.255.255", color_hex 0xffffff⟩,
    ppm := ⟨"ppm", color_hex 0xffffff⟩,
    level := ⟨"level", color_hex 0xffffff⟩,
    temperature := ⟨"temperature", color_hex 0xffffff⟩,
    humidity := ⟨"humidity", color_hex 0xffffff⟩ }

/-- Widget writes are the `set_text` and `set_text_color` events. -/
def is_widget_write : Event → Bool
  | .set_text _ _ => true
  | .set_text_color _ _ => true
  | _ => false

def widget_writes (tr : List Event) : List Event :=
  tr.filter is_widget_write

def is_driver_read : Event → Bool
  | .read_co2 => true
  | .read_temperature => true
  | .read_humidity => true
  | _ => false

/-- Does an event write to the `label_address` widget? -/
def targets_address : Event → Bool
  | .set_text .address _ => true
  | .set_text_color .address _ => true
  | _ => false

/-- Exception classes relevant to the `__main__` block; `other` stands for
any exception that is none of the named ones (e.g. an `OSError` raised by
the sensor driver). -/
inductive PyExc
  | cancelledError
  | keyboardInterrupt
  | importError
  | other (name : String)
deriving DecidableEq, Repr

/-- Observable outcome of the `try/except` around `asyncio.run(main())`:
how often `m5ui.deinit()` and `print_error_msg` run, whether the firmware
hint is printed, and whether an exception escapes uncaught. -/
structure MainRun where
  deinit_calls : Nat
  error_print_calls : Nat
  firmware_hint_printed : Bool
  uncaught : Option PyExc
deriving DecidableEq, Repr

/-- The `except` clauses of the `__main__` block applied to the exception
the run ended with: `CancelledError` and `KeyboardInterrupt` get the
cleanup path, `ImportError` gets the firmware hint, anything else escapes. -/
def main_exception_handler : PyExc → MainRun
  | .cancelledError => ⟨1, 1, false, none⟩
  | .keyboardInterrupt => ⟨1, 1, false, none⟩
  | .importError => ⟨0, 0, true, none⟩
  | .other n => ⟨0, 0, false, some (.other n)⟩

/-- Classifier result written as an if-chain; used to characterise
`get_co2_level` on the non-negative range. -/
def classify_ite (ppm : ℚ) : CO2Level :=
  if ppm < 500 then lvl_excellent
  else if ppm < 700 then lvl_good
  else if ppm < 1000 then lvl_acceptable
  else if ppm < 1500 then lvl_poor
  else lvl_bad

/-- Band index written as an if-chain; used to characterise
`get_co2_level_index` on the non-negative range. -/
def index_ite (ppm : ℚ) : Nat :=
  if ppm < 500 then 0
  else if ppm < 700 then 1
  else if ppm < 1000 then 2
  else if ppm < 1500 then 3
  else 4

lemma get_co2_level_eq_ite (ppm : ℚ) (h0 : 0 ≤ ppm) :
    get_co2_level ppm = some (classify_ite ppm) := by
  unfold get_co2_level classify_ite co2_levels
  simp only [List.find?, band_matches, lvl_excellent, lvl_good, lvl_acceptable, lvl_poor, lvl_bad]
  split_ifs with h1 h2 h3 h4
  · simp [decide_eq_true h0, decide_eq_true h1]
  · simp [decide_eq_false h1, decide_eq_true (not_lt.mp h1), decide_eq_true h2]
  · simp [decide_eq_false h1, decide_eq_false h2, decide_eq_true (not_lt.mp h2), decide_eq_true h3]
  · simp [decide_eq_false h1, decide_eq_false h2, decide_eq_false h3,
      decide_eq_true (not_lt.mp h3), decide_eq_true h4]
  · simp [decide_eq_false h1, decide_eq_false h2, decide_eq_false h3, decide_eq_false h4,
      decide_eq_true (not_lt.mp h4)]

lemma get_co2_level_index_eq_ite (ppm : ℚ) (h0 : 0 ≤ ppm) :
    get_co2_level_index ppm = index_ite ppm := by
  unfold get_co2_level_index index_ite co2_levels
  simp only [List.findIdx_cons, band_matches, lvl_excellent, lvl_good, lvl_acceptable, lvl_poor,
    lvl_bad]
  split_ifs with h1 h2 h3 h4
  · simp [decide_eq_true h0, decide_eq_true h1]
  · simp [decide_eq_false h1, decide_eq_true (not_lt.mp h1), decide_eq_true h2]
  · simp [decide_eq_false h1, decide_eq_false h2, decide_eq_true (not_lt.mp h2), decide_eq_true h3]
  · simp [decide_eq_false h1, decide_eq_false h2, decide_eq_false h3,
      decide_eq_true (not_lt.mp h3), decide_eq_true h4]
  · simp [decide_eq_false h1, decide_eq_false h2, decide_eq_false h3, decide_eq_false h4,
      decide_eq_true (not_lt.mp h4)]

lemma matches_eq_classify (ppm : ℚ) (l : CO2Level)
    (hl : l ∈ co2_levels) (h : band_matches ppm l = true) :
    l = classify_ite ppm := by
  fin_cases hl <;>
    simp [band_matches, lvl_excellent, lvl_good, lvl_acceptable, lvl_poor, lvl_bad] at h <;>
    unfold classify_ite <;>
    split_ifs <;>
    first
      | rfl
      | (exfalso; obtain ⟨hA, hB⟩ := h; linarith)
      | (exfalso; linarith [h])

lemma get_co2_level_of_neg (ppm : ℚ) (h : ppm < 0) : get_co2_level ppm = none := by
  unfold get_co2_level co2_levels
  simp only [List.find?, band_matches, lvl_excellent, lvl_good, lvl_acceptable, lvl_poor, lvl_bad]
  simp [decide_eq_false (by linarith : ¬ (0:ℚ) ≤ ppm),
        decide_eq_false (by linarith : ¬ (500:ℚ) ≤ ppm),
        decide_eq_false (by linarith : ¬ (700:ℚ) ≤ ppm),
        decide_eq_false (by linarith : ¬ (1000:ℚ) ≤ ppm),
        decide_eq_false (by linarith : ¬ (1500:ℚ) ≤ ppm)]

lemma classify_ite_mem (ppm : ℚ) : classify_ite ppm ∈ co2_levels := by
  unfold classify_ite co2_levels
  split_ifs <;> simp

lemma classify_ite_matches (ppm : ℚ) (h0 : 0 ≤ ppm) :
    band_matches ppm (classify_ite ppm) = true := by
  unfold classify_ite
  split_ifs with h1 h2 h3 h4 <;>
    simp [band_matches, lvl_excellent, lvl_good, lvl_acceptable, lvl_poor, lvl_bad] <;>
    first
      | linarith
      | (constructor <;> linarith)

lemma index_get_connection (ppm : ℚ) (h0 : 0 ≤ ppm) :
    co2_levels[get_co2_level_index ppm]? = get_co2_level ppm := by
  rw [get_co2_level_index_eq_ite ppm h0, get_co2_level_eq_ite ppm h0]
  unfold index_ite classify_ite
  split_ifs <;> rfl

lemma cmd_not_in_iteration (s : SensorInput) :
    Event.cmd_stop ∉ co2_iteration s ∧ Event.cmd_start ∉ co2_iteration s := by
  unfold co2_iteration
  split
  · split <;> simp
  · simp

lemma cmd_not_in_loop (inputs : List SensorInput) :
    Event.cmd_stop ∉ co2_loop inputs ∧ Event.cmd_start ∉ co2_loop inputs := by
  induction inputs with
  | nil => simp [co2_loop]
  | cons s rest ih =>
      unfold co2_loop
      split
      · exact cmd_not_in_iteration s
      · constructor
        · simp only [List.mem_append, not_or]
          exact ⟨(cmd_not_in_iteration s).1, ih.1⟩
        · simp only [List.mem_append, not_or]
          exact ⟨(cmd_not_in_iteration s).2, ih.2⟩

lemma apply_event_address (st : DisplayState) (e : Event)
    (h : targets_address e = false) : (apply_event st e).address = st.address := by
  cases e with
  | set_text l s =>
      cases l <;> simp_all [apply_event, targets_address, update_label]
  | set_text_color l c =>
      cases l <;> simp_all [apply_event, targets_address, update_label]
  | _ => rfl

lemma run_events_address (tr : List Event) :
    ∀ st : DisplayState, (∀ e ∈ tr, targets_address e = false) →
      (run_events st tr).address = st.address := by
  induction tr with
  | nil => intro st _; rfl
  | cons e rest ih =>
      intro st h
      have h1 : targets_address e = false := h e (List.mem_cons_self e rest)
      have h2 : ∀ x ∈ rest, targets_address x = false :=
        fun x hx => h x (List.mem_cons_of_mem e hx)
      calc (run_events st (e :: rest)).address
          = (run_events (apply_event st e) rest).address := rfl
        _ = (apply_event st e).address := ih (apply_event st e) h2
        _ = st.address := apply_event_address st e h1

lemma address_not_in_iteration (s : SensorInput) :
    ∀ e ∈ co2_iteration s, targets_address e = false := by
  intro e he
  unfold co2_iteration at he
  split at he
  · split at he <;> (simp at he; rcases he with rfl | he <;> try rfl) <;>
      (repeat (first | rfl | (rcases he with rfl | he) | (cases he)))
  · simp at he
    rcases he with rfl | rfl <;> rfl

lemma address_not_in_loop (inputs : List SensorInput) :
    ∀ e ∈ co2_loop inputs, targets_address e = false := by
  induction inputs with
  | nil => simp [co2_loop]
  | cons s rest ih =>
      intro e he
      unfold co2_loop at he
      split at he
      · exact address_not_in_iteration s e he
      · rcases List.mem_append.mp he with h | h
        · exact address_not_in_iteration s e h
        · exact ih e h

lemma address_not_in_co2_trace (inputs : List SensorInput) :
    ∀ e ∈ co2_task_trace inputs, targets_address e = false := by
  intro e he
  unfold co2_task_trace at he
  simp only [List.mem_cons] at he
  rcases he with rfl | rfl | rfl | he
  · rfl
  · rfl
  · rfl
  · exact address_not_in_loop inputs e he

lemma address_not_in_ui_trace (n : Nat) :
    ∀ e ∈ ui_task_trace n, targets_address e = false := by
  intro e he
  unfold ui_task_trace at he
  simp only [List.mem_cons] at he
  rcases he with rfl | he
  · rfl
  · simp only [List.mem_flatten] at he
    obtain ⟨l, hl, hel⟩ := he
    rw [List.eq_of_mem_replicate hl] at hel
    simp only [List.mem_cons, List.not_mem_nil, or_false] at hel
    rcases hel with rfl | rfl <;> rfl

/-- C1: every non-negative ppm is classified to exactly one band, the first
(and only) matching entry of the table; the boundary evaluations hold and
the five intervals are exactly the enumerated division of the
non-negative line into disjoint covering pieces. -/
theorem get_co2_level_partition :
    (∀ ppm : ℚ, 0 ≤ ppm →
      ∃ l, get_co2_level ppm = some l ∧ l ∈ co2_levels ∧ band_matches ppm l = true ∧
        ∀ l' ∈ co2_levels, band_matches ppm l' = true → l' = l) ∧
    get_co2_level 500 = some lvl_good ∧
    lvl_good.level = "Good" ∧
    lvl_good ≠ lvl_excellent ∧
    get_co2_level 700 = some lvl_acceptable ∧
    get_co2_level 1500 = some lvl_bad ∧
    get_co2_level 1000000 = some lvl_bad ∧
    co2_levels.map (fun l => (l.min_ppm, l.max_ppm)) =
      [(0, some 500), (500, some 700), (700, some 1000), (1000, some 1500), (1500, none)] := by
  refine ⟨?_, by decide, by decide, by decide, by decide, by decide, by decide, by decide⟩
  intro ppm h0
  refine ⟨classify_ite ppm, get_co2_level_eq_ite ppm h0, classify_ite_mem ppm,
    classify_ite_matches ppm h0, ?_⟩
  intro l' hl' hm
  exact matches_eq_classify ppm l' hl' hm

theorem get_co2_level_partition_witness :
    (0:ℚ) ≤ 800 ∧
      (∃ l, get_co2_level 800 = some l ∧ l ∈ co2_levels ∧ band_matches 800 l = true ∧
        ∀ l' ∈ co2_levels, band_matches 800 l' = true → l' = l) :=
  ⟨by norm_num, get_co2_level_partition.1 800 (by norm_num)⟩

/-- C2 counterexample: a driver exception (modelled as the class OSError)
reaching the `__main__` block matches no except clause: the cleanup path
(toolkit deinit plus error print) does not run, refuting the claim that it
executes exactly once on a driver exception. -/
theorem main_handler_driver_exc_no_cleanup :
    (main_exception_handler (.other ("OSError"))).deinit_calls = 0 ∧
    (main_exception_handler (.other ("OSError"))).error_print_calls = 0 ∧
    (main_exception_handler (.other ("OSError"))).uncaught = some (.other ("OSError")) ∧
    ¬((main_exception_handler (.other ("OSError"))).deinit_calls = 1 ∧
      (main_exception_handler (.other ("OSError"))).error_print_calls = 1) := by
  decide

/-- C2 amended: the cleanup path (toolkit deinit plus error print) executes
exactly once when the run ends with CancelledError or KeyboardInterrupt and
never otherwise; ImportError instead prints the firmware hint; any other
exception, such as one raised by the sensor driver, escapes with no
cleanup. -/
theorem main_cleanup_only_on_interrupt :
    ∀ e : PyExc,
      (main_exception_handler e).deinit_calls
          = (if e = .cancelledError ∨ e = .keyboardInterrupt then 1 else 0) ∧
      (main_exception_handler e).error_print_calls
          = (if e = .cancelledError ∨ e = .keyboardInterrupt then 1 else 0) ∧
      (main_exception_handler e).firmware_hint_printed = decide (e = .importError) ∧
      (main_exception_handler e).uncaught
          = (if e = .cancelledError ∨ e = .keyboardInterrupt ∨ e = .importError
             then none else some e) := by
  intro e
  cases e <;> simp [main_exception_handler]

/-- C3: on a data-ready tick with a negative ppm reading, the classifier
returns the no-band value and the task body faults while indexing into it,
performing no widget write and no no-render skip. -/
theorem co2_task_negative_ppm_faults :
    ∀ (p t h : ℚ), p < 0 →
      get_co2_level p = none ∧
      co2_iteration ⟨true, p, t, h⟩ = [.query_ready, .read_co2, .fault] ∧
      widget_writes (co2_iteration ⟨true, p, t, h⟩) = [] := by
  intro p t h hp
  have hn : get_co2_level p = none := get_co2_level_of_neg p hp
  refine ⟨hn, ?_, ?_⟩
  · simp [co2_iteration, hn]
  · simp [widget_writes, co2_iteration, hn, is_widget_write]

theorem co2_task_negative_ppm_faults_witness :
    (-5 : ℚ) < 0 ∧
      (get_co2_level (-5) = none ∧
       co2_iteration ⟨true, -5, 25, 40⟩ = [.query_ready, .read_co2, .fault] ∧
       widget_writes (co2_iteration ⟨true, -5, 25, 40⟩) = []) :=
  ⟨by norm_num, co2_task_negative_ppm_faults (-5) 25 40 (by norm_num)⟩

/-- C4: a not-ready iteration performs zero widget writes and leaves every
label unchanged; a ready iteration with a classifiable reading performs
exactly one consistent write: ppm, level, temperature and humidity texts,
each of the four labels colored with the band color of that reading. -/
theorem co2_task_frame_effect :
    ∀ (s : SensorInput) (st : DisplayState),
      (s.ready = false →
        co2_iteration s = [.query_ready, .sleep_ms 1000] ∧
        run_events st (co2_iteration s) = st) ∧
      (s.ready = true → 0 ≤ s.co2 →
        ∃ lvl, get_co2_level s.co2 = some lvl ∧
          widget_writes (co2_iteration s) =
            [.set_text .ppm (toString s.co2 ++ " ppm"),
             .set_text_color .ppm lvl.color,
             .set_text .level lvl.level,
             .set_text_color .level lvl.color,
             .set_text .temperature (toString s.temperature ++ " °C"),
             .set_text_color .temperature lvl.color,
             .set_text .humidity (toString s.humidity ++ " %"),
             .set_text_color .humidity lvl.color]) := by
  intro s st
  constructor
  · intro h
    constructor
    · simp [co2_iteration, h]
    · simp [co2_iteration, h, run_events, apply_event]
  · intro hr h0
    have hc := get_co2_level_eq_ite s.co2 h0
    refine ⟨classify_ite s.co2, hc, ?_⟩
    simp [co2_iteration, hr, hc, widget_writes, List.filter, is_widget_write]

theorem co2_task_frame_effect_witness :
    (co2_iteration ⟨false, 0, 0, 0⟩ = [.query_ready, .sleep_ms 1000] ∧
      run_events initial_display (co2_iteration ⟨false, 0, 0, 0⟩) = initial_display) ∧
    (∃ lvl, get_co2_level (800:ℚ) = some lvl ∧
      widget_writes (co2_iteration ⟨true, 800, 25, 40⟩) =
        [.set_text .ppm (toString (800:ℚ) ++ " ppm"),
         .set_text_color .ppm lvl.color,
         .set_text .level lvl.level,
         .set_text_color .level lvl.color,
         .set_text .temperature (toString (25:ℚ) ++ " °C"),
         .set_text_color .temperature lvl.color,
         .set_text .humidity (toString (40:ℚ) ++ " %"),
         .set_text_color .humidity lvl.color]) :=
  ⟨(co2_task_frame_effect ⟨false, 0, 0, 0⟩ initial_display).1 rfl,
   (co2_task_frame_effect ⟨true, 800, 25, 40⟩ initial_display).2 rfl (by norm_num)⟩

/-- C5 counterexample: in the data-ready iteration for ppm 800, the ppm
read is at position 1, the temperature read at position 7, and a widget
write (the ppm label color) sits between them at position 4, so the three
reads are not one atomic fetch free of interleaved widget writes. -/
theorem co2_task_reads_not_atomic :
    (co2_iteration ⟨true, 800, 25, 40⟩)[1]? = some Event.read_co2 ∧
    (co2_iteration ⟨true, 800, 25, 40⟩)[4]?
      = some (Event.set_text_color .ppm (color_hex 0xd6c831)) ∧
    (co2_iteration ⟨true, 800, 25, 40⟩)[7]? = some Event.read_temperature ∧
    (co2_iteration ⟨true, 800, 25, 40⟩)[10]? = some Event.read_humidity ∧
    is_widget_write (Event.set_text_color .ppm (color_hex 0xd6c831)) = true := by
  decide

/-- C5 amended: on a data-ready iteration the driver reads happen in the
order co2, temperature, humidity, but interleaved with widget writes: the
ppm and level label writes occur between the co2 read and the temperature
read, and the temperature label writes between the temperature and
humidity reads. -/
theorem co2_task_read_write_order :
    ∀ (s : SensorInput) (lvl : CO2Level),
      s.ready = true → get_co2_level s.co2 = some lvl →
      (co2_iteration s).filter is_driver_read
          = [.read_co2, .read_temperature, .read_humidity] ∧
      (co2_iteration s)[1]? = some .read_co2 ∧
      (co2_iteration s)[4]? = some (.set_text_color .ppm lvl.color) ∧
      (co2_iteration s)[7]? = some .read_temperature ∧
      (co2_iteration s)[9]? = some (.set_text_color .temperature lvl.color) ∧
      (co2_iteration s)[10]? = some .read_humidity := by
  intro s lvl hr hc
  simp [co2_iteration, hr, hc, List.filter, is_driver_read]

theorem co2_task_read_write_order_witness :
    (co2_iteration ⟨true, 800, 25, 40⟩).filter is_driver_read
        = [.read_co2, .read_temperature, .read_humidity] ∧
    (co2_iteration ⟨true, 800, 25, 40⟩)[1]? = some .read_co2 ∧
    (co2_iteration ⟨true, 800, 25, 40⟩)[4]?
        = some (.set_text_color .ppm lvl_acceptable.color) ∧
    (co2_iteration ⟨true, 800, 25, 40⟩)[7]? = some .read_temperature ∧
    (co2_iteration ⟨true, 800, 25, 40⟩)[9]?
        = some (.set_text_color .temperature lvl_acceptable.color) ∧
    (co2_iteration ⟨true, 800, 25, 40⟩)[10]? = some .read_humidity :=
  co2_task_read_write_order ⟨true, 800, 25, 40⟩ lvl_acceptable rfl (by decide)

/-- C6: for every reading below the lowest band minimum (any negative ppm),
`get_co2_level` returns `None`; being a total Lean function of its argument
it is pure and deterministic by construction. -/
theorem get_co2_level_negative_none :
    ∀ ppm : ℚ, ppm < 0 → get_co2_level ppm = none := by
  intro ppm h
  exact get_co2_level_of_neg ppm h

theorem get_co2_level_negative_none_witness :
    (-1 : ℚ) < 0 ∧ get_co2_level (-1) = none :=
  ⟨by norm_num, get_co2_level_negative_none (-1) (by norm_num)⟩

/-- C7: the task trace starts with the startup print, then the stop
command, then the start command, and neither command recurs in the polling
loop, so stop is issued exactly once, before start, and both precede every
readiness query and reading fetch. -/
theorem co2_task_command_order :
    ∀ inputs : List SensorInput,
      co2_task_trace inputs =
        Event.print_msg ("CO2 task started") ::
          Event.cmd_stop :: Event.cmd_start :: co2_loop inputs ∧
      Event.cmd_stop ∉ co2_loop inputs ∧
      Event.cmd_start ∉ co2_loop inputs ∧
      (co2_task_trace inputs).count Event.cmd_stop = 1 ∧
      (co2_task_trace inputs).count Event.cmd_start = 1 := by
  intro inputs
  refine ⟨rfl, (cmd_not_in_loop inputs).1, (cmd_not_in_loop inputs).2, ?_, ?_⟩
  · unfold co2_task_trace
    rw [List.count_cons, List.count_cons, List.count_cons]
    simp [List.count_eq_zero.mpr (cmd_not_in_loop inputs).1]
  · unfold co2_task_trace
    rw [List.count_cons, List.count_cons, List.count_cons]
    simp [List.count_eq_zero.mpr (cmd_not_in_loop inputs).2]

/-- C8: ppm 250 and ppm 600 fall in the distinct bands Excellent and Good,
which intentionally share the green color 0x43c44f, and the five bands
carry exactly the enumerated colors. -/
theorem band_colors_enumerated :
    (get_co2_level 250).map CO2Level.color = some (color_hex 0x43c44f) ∧
    (get_co2_level 600).map CO2Level.color = some (color_hex 0x43c44f) ∧
    get_co2_level 250 = some lvl_excellent ∧
    get_co2_level 600 = some lvl_good ∧
    lvl_excellent ≠ lvl_good ∧
    co2_levels.map CO2Level.color =
      [color_hex 0x43c44f, color_hex 0x43c44f, color_hex 0xd6c831,
       color_hex 0xd68131, color_hex 0xd63131] := by
  decide

/-- C9: no iteration of either task ever writes the address label: running
any schedule of either task trace leaves `label_address` exactly as the
bootstrap built it (text 255.255.255.255, white color). -/
theorem label_address_never_written :
    ∀ (inputs : List SensorInput) (n : Nat) (st : DisplayState),
      (run_events st (co2_task_trace inputs)).address = st.address ∧
      (run_events st (ui_task_trace n)).address = st.address ∧
      (run_events initial_display (co2_task_trace inputs)).address
        = ⟨"255.255.255.255", color_hex 0xffffff⟩ := by
  intro inputs n st
  refine ⟨run_events_address _ st (address_not_in_co2_trace inputs),
          run_events_address _ st (address_not_in_ui_trace n), ?_⟩
  rw [run_events_address _ initial_display (address_not_in_co2_trace inputs)]
  rfl

/-- C10: the classifier is monotone in the band ordering: for non-negative
readings a ≤ b, the table index of the band of a is at most that of b, and
the index really is the position of the band `get_co2_level` returns. -/
theorem get_co2_level_index_monotone :
    ∀ a b : ℚ, 0 ≤ a → a ≤ b →
      get_co2_level_index a ≤ get_co2_level_index b ∧
      co2_levels[get_co2_level_index a]? = get_co2_level a ∧
      co2_levels[get_co2_level_index b]? = get_co2_level b := by
  intro a b h0 hab
  have h0b : 0 ≤ b := le_trans h0 hab
  refine ⟨?_, index_get_connection a h0, index_get_connection b h0b⟩
  rw [get_co2_level_index_eq_ite a h0, get_co2_level_index_eq_ite b h0b]
  unfold index_ite
  split_ifs <;> first | (exfalso; linarith) | norm_num

theorem get_co2_level_index_monotone_witness :
    (0:ℚ) ≤ 250 ∧ (250:ℚ) ≤ 1200 ∧
      (get_co2_level_index 250 ≤ get_co2_level_index 1200 ∧
       co2_levels[get_co2_level_index 250]? = get_co2_level 250 ∧
       co2_levels[get_co2_level_index 1200]? = get_co2_level 1200) :=
  ⟨by norm_num, by norm_num, get_co2_level_index_monotone 250 1200 (by norm_num) (by norm_num)⟩

end Njord
